import Mathlib

/-!
Verification development for cpp_tidbits.

Shallow embedding of `templates.cpp`, `member_calls_ctor.cpp` and
`cont_string.cpp`.

Conventions of the embedding.

* A C++ reference `T&` is a location (`Loc`); the objects of one type live in a
  memory `Loc → T`.  Two references alias exactly when the locations are equal.
* `std::cout` is the list of the chunks inserted so far; `std::endl` inserts
  the chunk `"\n"`.
* A `throw` is the `error` side of `Except Exn`.
* Behaviour the language leaves undefined (an access outside an array) is
  `none`.
-/

namespace CppTidbits

/-! ## Exceptions, memory and output -/

/-- Exceptions a demonstration can raise, by what the handlers of
`test_swaps` can tell apart. -/
inductive Exn where
  /-- Object of `std::out_of_range` (derived from `std::exception`). -/
  | out_of_range (what : String)
  /-- Object of any other class derived from `std::exception`. -/
  | std_exception (what : String)
  /-- Object of a type not derived from `std::exception`. -/
  | unknown
  deriving DecidableEq, Repr

/-- Whether `catch(std::exception &ex)` matches the exception. -/
def Exn.derives_std_exception : Exn → Bool
  | .out_of_range _ => true
  | .std_exception _ => true
  | .unknown => false

/-- Result of `ex.what()` for the exceptions that have one. -/
def Exn.what : Exn → String
  | .out_of_range s => s
  | .std_exception s => s
  | .unknown => ""

/-- Locations: what a C++ reference denotes. -/
abbrev Loc := Nat

/-- Objects of type `V` addressed by location, together with the output
written to `std::cout` so far. -/
structure World (V : Type) where
  mem : Loc → V
  cout : List String

/-- Chunk inserted by `std::endl`. -/
def endl : String := "\n"

/-! ## `std::swap` and `std::string::swap` (library semantics) -/

/-- Library `std::swap<T>(T& x, T& y)`:
`T tmp = std::move(x); x = std::move(y); y = std::move(tmp);`.
`mv v` is the valid state in which an object of value `v` is left after
being moved from (`mv = id` for `int`).  `A` is the type of addresses. -/
def std_swap {A V : Type} [DecidableEq A] (mv : V → V) (x y : A) (mem : A → V) : A → V :=
  -- T tmp = std::move(x);
  let tmp := mem x
  let m1 := Function.update mem x (mv (mem x))
  -- x = std::move(y);
  let vy := m1 y
  let m2 := Function.update (Function.update m1 x vy) y (mv vy)
  -- y = std::move(tmp);
  Function.update m2 y tmp

/-- Library `std::string::swap` (and any native exchange of contents): the two
objects exchange their values. -/
def exchange {A V : Type} [DecidableEq A] (x y : A) (mem : A → V) : A → V :=
  Function.update (Function.update mem x (mem y)) y (mem x)

/-! ## `ourclass<T>` -/

/-- Class template `ourclass<T>`: the private member `T a[3]`. -/
structure ourclass (T : Type) where
  a : Fin 3 → T

/-- Elements of the storage in index order. -/
def ourclass.toList {T : Type} (o : ourclass T) : List T := [o.a 0, o.a 1, o.a 2]

/-- Element view of a memory of `ourclass<T>` objects: slot `i` of the array
`a` of the object at `l` has address `(l, i)`. -/
def elems {T : Type} (mem : Loc → ourclass T) : Loc × Fin 3 → T :=
  fun p => (mem p.1).a p.2

/-- Object view of an element memory (inverse of `elems`). -/
def objects {T : Type} (em : Loc × Fin 3 → T) : Loc → ourclass T :=
  fun l => ⟨fun i => em (l, i)⟩

/-- Library `std::swap(T (&x)[3], T (&y)[3])`, that is
`std::swap_ranges(x, x + 3, y)`: the elements are swapped pairwise, in index
order. -/
def std_swap_array {T : Type} (mv : T → T) (x y : Loc) (em : Loc × Fin 3 → T) :
    Loc × Fin 3 → T :=
  ([0, 1, 2] : List (Fin 3)).foldl (fun m i => std_swap mv (x, i) (y, i) m) em

/-- Member `void ourclass::swap(ourclass& other) noexcept` (lines 45-49). -/
def ourclass.swap {T : Type} (mv : T → T) (this other : Loc) (w : World (ourclass T)) :
    World (ourclass T) :=
  let w1 : World (ourclass T) := { w with cout := w.cout ++ ["ourclass embedded swap", endl] }
  { w1 with mem := objects (std_swap_array mv this other (elems w1.mem)) }

/-- Member `T ourclass<T>::getbyIndex(int index)` (lines 115-117): `a[index]`;
`none` is an access outside the array. -/
def ourclass.getbyIndex {T : Type} (o : ourclass T) (index : Int) : Option T :=
  if h : 0 ≤ index ∧ index < 3 then
    some (o.a ⟨index.toNat, by omega⟩)
  else none

/-- Array assignment `a[i] = x`; `none` is a write outside the array. -/
def store_at {T : Type} (a : Fin 3 → T) (i : Nat) (x : T) : Option (Fin 3 → T) :=
  if h : i < 3 then some (Function.update a ⟨i, h⟩ x) else none

/-- Library `std::copy(first, last, a + i)`: the elements of the source range
are assigned to `a[i]`, `a[i+1]`, ... in order. -/
def std_copy {T : Type} : List T → Nat → (Fin 3 → T) → Option (Fin 3 → T)
  | [], _, a => some a
  | x :: xs, i, a => (store_at a i x).bind (std_copy xs (i + 1))

/-- State in which the body of a constructor is left: the member `a`, the
output, and the exception in flight if the body was left by a `throw`. -/
structure CtorExit (T : Type) where
  a : Fin 3 → T
  cout : List String
  thrown : Option Exn

/-- Constructor `ourclass(const std::initializer_list<T> &init_list)`
(lines 36-42), run on the storage `a0` of the default-initialised member `a`;
`none` is undefined behaviour. -/
def ourclass.ctor {T : Type} (init_list : List T) (a0 : Fin 3 → T) (cout : List String) :
    Option (CtorExit T) :=
  let cout1 := cout ++ ["init from init_list", endl]
  if init_list.length > 3 then
    some { a := a0, cout := cout1, thrown := some (Exn.out_of_range "Initializer list is too big") }
  else
    (std_copy init_list 0 a0).map fun a => { a := a, cout := cout1, thrown := none }

/-- Value of the expression `ourclass<T>{init_list}`: the object when the
constructor returns, the exception when it throws (then there is no object). -/
def ourclass.make {T : Type} (init_list : List T) (a0 : Fin 3 → T) (cout : List String) :
    Option (Except Exn (ourclass T) × List String) :=
  (ourclass.ctor init_list a0 cout).map fun c =>
    match c.thrown with
    | some e => (Except.error e, c.cout)
    | none => (Except.ok { a := c.a }, c.cout)

/-! ## The three `swap` overloads (lines 120-140) -/

/-- Overload `template<typename T> void swap(ourclass<T> &l, ourclass<T> &r)`
(lines 120-125). -/
def swap_ourclass {T : Type} (mv : T → T) (l r : Loc) (w : World (ourclass T)) :
    World (ourclass T) :=
  let w1 := ourclass.swap mv l r w
  { w1 with cout := w1.cout ++ ["Specialized swap for ourclass was called", endl] }

/-- Overload `template<typename T> void swap(T& l, T& r)` (lines 127-134). -/
def swap {T : Type} (l r : Loc) (w : World T) : World T :=
  -- T tmp=l;
  let tmp := w.mem l
  -- l=r;
  let m1 := Function.update w.mem l (w.mem r)
  -- r=tmp;
  let m2 := Function.update m1 r tmp
  { mem := m2, cout := w.cout ++ ["Local swap was called", endl] }

/-- Overload `void swap(string& lhs, string& rhs)` (lines 136-140). -/
def swap_string (lhs rhs : Loc) (w : World String) : World String :=
  { mem := exchange lhs rhs w.mem,
    cout := w.cout ++ ["Local no-template string-specialized swap was called", endl] }

/-! ## Class `NoTemplate` (lines 142-167) -/

/-- Class `NoTemplate`: the private member `string a[3]`. -/
structure NoTemplate where
  a : Fin 3 → String

/-- Constructor `NoTemplate(const std::initializer_list<string> &init_list)`
(lines 145-151), run on the default-initialised member `a0`. -/
def NoTemplate.ctor (init_list : List String) (a0 : Fin 3 → String) (cout : List String) :
    Option (CtorExit String) :=
  let cout1 := cout ++ ["init from init_list", endl]
  if init_list.length > 3 then
    some { a := a0, cout := cout1, thrown := some (Exn.out_of_range "Initializer list is too big") }
  else
    (std_copy init_list 0 a0).map fun a => { a := a, cout := cout1, thrown := none }

/-- Value of the expression `NoTemplate{init_list}`. -/
def NoTemplate.make (init_list : List String) (a0 : Fin 3 → String) (cout : List String) :
    Option (Except Exn NoTemplate × List String) :=
  (NoTemplate.ctor init_list a0 cout).map fun c =>
    match c.thrown with
    | some e => (Except.error e, c.cout)
    | none => (Except.ok { a := c.a }, c.cout)

/-! ## Output operators (lines 18-28 and 158-167) -/

/-- Chunks written by `os<<'\x7b'; for (auto &s : a) os << s << " "; os<<'\x7d';`
where `put s` is what `os << s` writes for an element. -/
def put_array {T : Type} (put : T → String) (a : Fin 3 → T) : List String :=
  ["\x7b"] ++ ([0, 1, 2] : List (Fin 3)).foldl (fun out i => out ++ [put (a i), " "]) []
    ++ ["\x7d"]

/-- Operator `ostream& operator<<(ostream& os, ourclass<T> & ocs)` (lines 18-28). -/
def ourclass.put {T : Type} (put : T → String) (ocs : ourclass T) : List String :=
  put_array put ocs.a

/-- Operator `ostream& operator<<(ostream& os, NoTemplate & ntl)` (lines 158-167). -/
def NoTemplate.put (ntl : NoTemplate) : List String :=
  put_array id ntl.a

/-! ## Overload resolution of a call `swap(x, y)`

The declarations named `swap` that a call in `templates.cpp` can see are the
three of the file and, through `using namespace std;` (line 11), those of the
library.  Of the library overloads only the two that accept an argument of
one of the types below are listed.  Both arguments of every call in the file
have the same type and bind to the reference parameters without conversion, so
the candidates are ranked by the two rules that remain: a non-template function
is better than a template specialisation, and of two templates the more
specialised is better. -/

/-- Static type of the two arguments of a call. -/
inductive Ty where
  | int
  | string
  | NoTemplate
  | ourclass (elem : Ty)
  deriving DecidableEq, Repr

/-- Objects of a static type. -/
def Ty.denote : Ty → Type
  | .int => Int
  | .string => String
  | .NoTemplate => CppTidbits.NoTemplate
  | .ourclass e => CppTidbits.ourclass e.denote

/-- State in which a moved-from object is left: `ms` for a `std::string`, the
value itself for an `int`, memberwise for the classes (their move operations
are the implicit ones). -/
def Ty.moved (ms : String → String) : (t : Ty) → t.denote → t.denote
  | .int => fun v => v
  | .string => ms
  | .NoTemplate => fun (o : CppTidbits.NoTemplate) => { a := fun i => ms (o.a i) }
  | .ourclass e => fun (o : CppTidbits.ourclass e.denote) =>
      ({ a := fun i => Ty.moved ms e (o.a i) } : CppTidbits.ourclass e.denote)

/-- Declarations named `swap`. -/
inductive Candidate where
  /-- Lines 120-125: `template<typename T> void swap(ourclass<T>&, ourclass<T>&)`. -/
  | swap_ourclass
  /-- Lines 127-134: `template<typename T> void swap(T&, T&)`. -/
  | swap_T
  /-- Lines 136-140: `void swap(string&, string&)`. -/
  | swap_string
  /-- Library: `template<class T> void std::swap(T&, T&)`. -/
  | std_swap_T
  /-- Library: `template<class C, class Tr, class A>
  void std::swap(basic_string<C,Tr,A>&, basic_string<C,Tr,A>&)`. -/
  | std_swap_basic_string
  deriving DecidableEq, Repr

/-- Parameter type of a declaration, up to the reference. -/
inductive Param where
  | T
  | ourclass_T
  | string
  | basic_string
  deriving DecidableEq, Repr

def Candidate.param : Candidate → Param
  | .swap_ourclass => .ourclass_T
  | .swap_T => .T
  | .swap_string => .string
  | .std_swap_T => .T
  | .std_swap_basic_string => .basic_string

def Candidate.is_template : Candidate → Bool
  | .swap_string => false
  | _ => true

def Candidate.in_std : Candidate → Bool
  | .std_swap_T => true
  | .std_swap_basic_string => true
  | _ => false

/-- Form of the name in the call. -/
inductive Lookup where
  /-- Call `swap(x, y)`. -/
  | unqualified
  /-- Call `::swap(x, y)`. -/
  | global
  /-- Call `std::swap(x, y)`. -/
  | std
  deriving DecidableEq, Repr

/-- Name lookup.  An unqualified name sees the global declarations and, by the
using-directive, those of `std`; `::swap` sees the global namespace only, as it
declares the name itself; `std::swap` sees `std` only. -/
def Lookup.finds : Lookup → Candidate → Bool
  | .unqualified, _ => true
  | .global, c => !c.in_std
  | .std, c => c.in_std

/-- Whether an argument pair of the type is accepted: template argument
deduction succeeds, or the non-template parameter type is the type. -/
def Param.deduces : Param → Ty → Bool
  | .T, _ => true
  | .ourclass_T, .ourclass _ => true
  | .string, .string => true
  | .basic_string, .string => true
  | _, _ => false

/-- Ordering of the parameter types by specialisation: `p` is at least as
specialised as `q` when `q` is deduced from every type made from `p`. -/
def Param.at_least_as_specialized : Param → Param → Bool
  | _, .T => true
  | .ourclass_T, .ourclass_T => true
  | .string, .string => true
  | .string, .basic_string => true
  | .basic_string, .basic_string => true
  | _, _ => false

/-- Whether `c` is a better candidate than `d`. -/
def Candidate.better (c d : Candidate) : Bool :=
  (!c.is_template && d.is_template) ||
  (c.is_template && d.is_template &&
    c.param.at_least_as_specialized d.param && !d.param.at_least_as_specialized c.param)

/-- Declarations in the order of the text, the library first. -/
def declared : List Candidate :=
  [.std_swap_T, .std_swap_basic_string, .swap_ourclass, .swap_T, .swap_string]

/-- Viable candidates of a call. -/
def viable (lk : Lookup) (t : Ty) : List Candidate :=
  declared.filter fun c => lk.finds c && c.param.deduces t

/-- Best viable candidate: the one better than every other viable one; `none`
when there is none or no single one (the call is ill-formed). -/
def resolve (lk : Lookup) (t : Ty) : Option Candidate :=
  match (viable lk t).filter fun c => (viable lk t).all fun d => d == c || c.better d with
  | [c] => some c
  | _ => none

/-- Body of a candidate, run on arguments of type `t`. -/
def Candidate.invoke (ms : String → String) :
    Candidate → (t : Ty) → Loc → Loc → World t.denote → Option (World t.denote)
  | .swap_ourclass, .ourclass e, l, r, w =>
      some (CppTidbits.swap_ourclass (Ty.moved ms e) l r w)
  | .swap_T, _, l, r, w => some (CppTidbits.swap l r w)
  | .swap_string, .string, l, r, w => some (CppTidbits.swap_string l r w)
  | .std_swap_T, t, l, r, w => some { w with mem := std_swap (Ty.moved ms t) l r w.mem }
  | .std_swap_basic_string, .string, l, r, w =>
      some (({ w with mem := exchange l r w.mem } : World String))
  | _, _, _, _, _ => none

/-- Call of `swap` with the given form of name on two objects of type `t`;
`none` when the call is ill-formed. -/
def call_swap (ms : String → String) (lk : Lookup) (t : Ty) (l r : Loc)
    (w : World t.denote) : Option (World t.denote) :=
  (resolve lk t).bind fun c => c.invoke ms t l r w

/-! ## `test_swaps` (lines 170-224) -/

/-- Local variables of `test_swaps`, one memory for each type, and the two
output streams.  In each memory the first variable declared is at location 0
and the second at location 1. -/
structure Locals where
  /-- Variables `i1`, `i2`. -/
  ints : Loc → Int
  /-- Variables `sOne`, `sTwo`. -/
  strings : Loc → String
  /-- Variables `oci`, `oci2`. -/
  ocis : Loc → ourclass Int
  /-- Variables `ocs`, `ocs2`. -/
  ocss : Loc → ourclass String
  /-- Variables `ntl1`, `ntl2`. -/
  ntls : Loc → NoTemplate
  cout : List String
  cerr : List String

/-- Statements: from a state to `none` (the statement is ill-formed or its
behaviour undefined) or to the state reached, with the value or the exception
thrown. -/
def Run (α : Type) : Type := Locals → Option (Except Exn α × Locals)

instance : Monad Run where
  pure x := fun s => some (Except.ok x, s)
  bind m f := fun s =>
    match m s with
    | none => none
    | some (Except.error e, s1) => some (Except.error e, s1)
    | some (Except.ok x, s1) => f x s1

/-- Statement `cout << c1 << c2 << ...;`. -/
def put (chunks : List String) : Run Unit :=
  fun s => some (Except.ok (), { s with cout := s.cout ++ chunks })

/-- Current state. -/
def locals : Run Locals := fun s => some (Except.ok s, s)

/-- How the variables of one type are read from and written to the locals. -/
structure Vars (V : Type) where
  get : Locals → Loc → V
  set : Locals → (Loc → V) → Locals

def int_vars : Vars Int := ⟨fun s => s.ints, fun s m => { s with ints := m }⟩

def string_vars : Vars String := ⟨fun s => s.strings, fun s m => { s with strings := m }⟩

def oci_vars : Vars (ourclass Int) := ⟨fun s => s.ocis, fun s m => { s with ocis := m }⟩

def ocs_vars : Vars (ourclass String) := ⟨fun s => s.ocss, fun s m => { s with ocss := m }⟩

def ntl_vars : Vars NoTemplate := ⟨fun s => s.ntls, fun s m => { s with ntls := m }⟩

/-- Initialisation of a variable with a value. -/
def init {V : Type} (v : Vars V) (l : Loc) (x : V) : Run Unit :=
  fun s => some (Except.ok (), v.set s (Function.update (v.get s) l x))

/-- Run a function on the variables of one type and `cout`. -/
def on_vars {V : Type} (v : Vars V) (f : World V → Option (World V)) : Run Unit :=
  fun s =>
    match f { mem := v.get s, cout := s.cout } with
    | none => none
    | some w => some (Except.ok (), { v.set s w.mem with cout := w.cout })

/-- Declaration of a variable initialised by a constructor call: the object
is stored when the constructor returns, the exception propagates otherwise. -/
def declare {V : Type} (v : Vars V) (l : Loc)
    (make : Locals → Option (Except Exn V × List String)) : Run Unit :=
  fun s =>
    match make s with
    | none => none
    | some (Except.error e, out) => some (Except.error e, { s with cout := out })
    | some (Except.ok x, out) =>
        some (Except.ok (), { v.set s (Function.update (v.get s) l x) with cout := out })

/-- Storage of a default-initialised `string a[3]`: three empty strings. -/
def empty_strings : Fin 3 → String := fun _ => ""

/-- Statements of the `try` block of `test_swaps` (lines 174-211).  `ms` is the
state of a moved-from `std::string`. -/
def test_swaps_body (ms : String → String) : Run Unit := do
  -- int i1 = 1, i2=2;
  init int_vars 0 1
  init int_vars 1 2
  let s ← locals
  put ["ints before swap: \n", "i1=", toString (s.ints 0), ",i2=", toString (s.ints 1), endl]
  -- ::swap(i1,i2);
  on_vars int_vars (call_swap ms .global .int 0 1)
  let s ← locals
  put ["ints after ::swap(): \n", "i1=", toString (s.ints 0), ",i2=", toString (s.ints 1), endl]
  -- std::swap(i1,i2);
  on_vars int_vars (call_swap ms .std .int 0 1)
  let s ← locals
  put ["ints after std::swap(): \n", "i1=", toString (s.ints 0), ",i2=", toString (s.ints 1),
    endl, endl]
  -- string sOne="StrOne"; string sTwo="StrTwo";
  init string_vars 0 "StrOne"
  init string_vars 1 "StrTwo"
  let s ← locals
  put ["strings before swap: ", s.strings 0, " ", s.strings 1, endl]
  -- swap(sOne,sTwo);
  on_vars string_vars (call_swap ms .unqualified .string 0 1)
  let s ← locals
  put ["after std::swap: ", s.strings 0, " ", s.strings 1, endl]
  -- ::swap(sOne,sTwo);
  on_vars string_vars (call_swap ms .global .string 0 1)
  let s ← locals
  put ["after ::swap: ", s.strings 0, " ", s.strings 1, endl]
  -- sOne.swap(sTwo);
  on_vars string_vars (fun w => some { w with mem := exchange 0 1 w.mem })
  let s ← locals
  put ["after member-funct swap: ", s.strings 0, " ", s.strings 1, endl, endl]
  -- ourclass<int> oci{1,2,3}, oci2{11,22,33};
  declare oci_vars 0 (fun s => ourclass.make [1, 2, 3] (s.ocis 0).a s.cout)
  declare oci_vars 1 (fun s => ourclass.make [11, 22, 33] (s.ocis 1).a s.cout)
  let s ← locals
  put (["ourclass<int> bef swap:\n\t"] ++ (s.ocis 0).put toString ++ (s.ocis 1).put toString
    ++ [endl])
  -- swap(oci, oci2);
  on_vars oci_vars (call_swap ms .unqualified (.ourclass .int) 0 1)
  let s ← locals
  put (["ourclass<int> after swap:\n\t"] ++ (s.ocis 0).put toString ++ (s.ocis 1).put toString
    ++ [endl])
  -- std::swap(oci,oci2);
  on_vars oci_vars (call_swap ms .std (.ourclass .int) 0 1)
  let s ← locals
  put (["ourclass<int> after std::swap:\n\t"] ++ (s.ocis 0).put toString
    ++ (s.ocis 1).put toString ++ [endl, endl])
  -- ourclass<string> ocs = ...; ourclass<string> ocs2 = ...;
  declare ocs_vars 0 (fun s => ourclass.make ["Hi", "Bye", "End"] empty_strings s.cout)
  declare ocs_vars 1 (fun s => ourclass.make ["Moin", "Tschüss", "Aus"] empty_strings s.cout)
  let s ← locals
  put (["ourclass<string> bef swap:\n\t"] ++ (s.ocss 0).put id ++ (s.ocss 1).put id ++ [endl])
  -- swap(ocs, ocs2);
  on_vars ocs_vars (call_swap ms .unqualified (.ourclass .string) 0 1)
  let s ← locals
  put (["ourclass<string> after swap:\n\t"] ++ (s.ocss 0).put id ++ (s.ocss 1).put id
    ++ [endl])
  -- std::swap(ocs,ocs2);
  on_vars ocs_vars (call_swap ms .std (.ourclass .string) 0 1)
  let s ← locals
  put (["ourclass<string> after std::swap:\n\t"] ++ (s.ocss 0).put id ++ (s.ocss 1).put id
    ++ [endl, endl])
  -- NoTemplate ntl1{"One", "two", "three"}, ntl2{"Eins", "zwei", "drei"};
  declare ntl_vars 0 (fun s => NoTemplate.make ["One", "two", "three"] empty_strings s.cout)
  declare ntl_vars 1 (fun s => NoTemplate.make ["Eins", "zwei", "drei"] empty_strings s.cout)
  let s ← locals
  put (["Notemplate before swap:\n\t"] ++ (s.ntls 0).put ++ (s.ntls 1).put ++ [endl])
  -- ::swap(ntl1,ntl2);
  on_vars ntl_vars (call_swap ms .global .NoTemplate 0 1)
  let s ← locals
  put (["Notemplate after swap:\n\t"] ++ (s.ntls 0).put ++ (s.ntls 1).put ++ [endl, endl])

/-- The `try` block with its two handlers and the final `return 0;`
(lines 172-223), for an arbitrary block. -/
def try_catch (block : Run Unit) : Run Int :=
  fun s =>
    match block s with
    | none => none
    | some (Except.ok (), s1) =>
        -- return 0;
        some (Except.ok 0, s1)
    | some (Except.error e, s1) =>
        if e.derives_std_exception then
          -- catch(std::exception &ex): cerr<<ex.what()<<endl; return 1;
          some (Except.ok 1, { s1 with cerr := s1.cerr ++ [e.what, endl] })
        else
          -- catch(...): cerr<<"Unknown exception"<<endl; then return 0;
          some (Except.ok 0, { s1 with cerr := s1.cerr ++ ["Unknown exception", endl] })

/-- Function `int test_swaps(void)`. -/
def test_swaps (ms : String → String) : Run Int :=
  try_catch (test_swaps_body ms)

/-- Chunks that one run of `test_swaps` appends to `cout` (see
`test_swaps_body_run`). -/
def test_swaps_cout : List String :=
  ["ints before swap: \n", "i1=", "1", ",i2=", "2", "\n", "Local swap was called", "\n", "ints after ::swap(): \n",
  "i1=", "2", ",i2=", "1", "\n", "ints after std::swap(): \n", "i1=", "1", ",i2=", "2", "\n", "\n",
  "strings before swap: ", "StrOne", " ", "StrTwo", "\n", "Local no-template string-specialized swap was called", "\n",
  "after std::swap: ", "StrTwo", " ", "StrOne", "\n", "Local no-template string-specialized swap was called", "\n",
  "after ::swap: ", "StrOne", " ", "StrTwo", "\n", "after member-funct swap: ", "StrTwo", " ", "StrOne", "\n", "\n",
  "init from init_list", "\n", "init from init_list", "\n", "ourclass<int> bef swap:\n\t", "\x7b", "1", " ", "2", " ", "3",
  " ", "\x7d", "\x7b", "11", " ", "22", " ", "33", " ", "\x7d", "\n", "ourclass embedded swap", "\n",
  "Specialized swap for ourclass was called", "\n", "ourclass<int> after swap:\n\t", "\x7b", "11", " ", "22", " ", "33",
  " ", "\x7d", "\x7b", "1", " ", "2", " ", "3", " ", "\x7d", "\n", "ourclass<int> after std::swap:\n\t", "\x7b", "1", " ", "2", " ",
  "3", " ", "\x7d", "\x7b", "11", " ", "22", " ", "33", " ", "\x7d", "\n", "\n", "init from init_list", "\n",
  "init from init_list", "\n", "ourclass<string> bef swap:\n\t", "\x7b", "Hi", " ", "Bye", " ", "End", " ", "\x7d", "\x7b",
  "Moin", " ", "Tschüss", " ", "Aus", " ", "\x7d", "\n", "ourclass embedded swap", "\n",
  "Specialized swap for ourclass was called", "\n", "ourclass<string> after swap:\n\t", "\x7b", "Moin", " ", "Tschüss", " ",
  "Aus", " ", "\x7d", "\x7b", "Hi", " ", "Bye", " ", "End", " ", "\x7d", "\n", "ourclass<string> after std::swap:\n\t", "\x7b", "Hi",
  " ", "Bye", " ", "End", " ", "\x7d", "\x7b", "Moin", " ", "Tschüss", " ", "Aus", " ", "\x7d", "\n", "\n", "init from init_list",
  "\n", "init from init_list", "\n", "Notemplate before swap:\n\t", "\x7b", "One", " ", "two", " ", "three", " ", "\x7d", "\x7b",
  "Eins", " ", "zwei", " ", "drei", " ", "\x7d", "\n", "Local swap was called", "\n", "Notemplate after swap:\n\t", "\x7b",
  "Eins", " ", "zwei", " ", "drei", " ", "\x7d", "\x7b", "One", " ", "two", " ", "three", " ", "\x7d", "\n", "\n"]

/-! ## `member_calls_ctor.cpp` -/

/-- Classes of `member_calls_ctor.cpp`. -/
inductive Class where
  | Father
  | Son
  | Vader
  | Luke
  | TalkVader
  | TalkLuke
  deriving DecidableEq, Repr

/-- Object with virtual functions: the class that decides virtual calls on it
now.  While the constructor of a class runs this is that class; when the
construction is complete it is the most derived class. -/
structure Object where
  dynamic : Class

/-- Output of the program and, for the statements below, the classes whose
`say` has run, in order. -/
structure Console where
  cout : List String
  said : List Class

/-- Bodies of the six functions `say` (lines 18, 27, 37, 43, 53, 62); each
class overrides the function, so the final overrider for a class is its own. -/
def say_body : Class → List String
  | .Father => ["I am Your Father", endl]
  | .Son => ["\tNooooooo", endl]
  | .Vader => ["I am Your Father", endl]
  | .Luke => ["\tNooooooo", endl]
  | .TalkVader => ["I am Your Father", endl]
  | .TalkLuke => ["\tNooooooo", endl]

/-- Virtual call `say()` on an object. -/
def say (this : Object) (c : Console) : Console :=
  { cout := c.cout ++ say_body this.dynamic, said := c.said ++ [this.dynamic] }

/-- Non-virtual member `sayAsUsual` of `Father`, `Vader` and `TalkVader`
(lines 15, 35, 51). -/
def sayAsUsual (this : Object) (c : Console) : Console :=
  say this { c with cout := c.cout ++ ["I usually say:", endl] }

/-- Implicit constructor of `Father`. -/
def Father.ctor (this : Object) (c : Console) : Object × Console :=
  ({ this with dynamic := .Father }, c)

/-- Implicit constructor of `Son`: the base, then the empty body. -/
def Son.ctor (this : Object) (c : Console) : Object × Console :=
  let r := Father.ctor this c
  ({ r.1 with dynamic := .Son }, r.2)

/-- Constructor `Vader() \x7bsay();\x7d` (line 33). -/
def Vader.ctor (this : Object) (c : Console) : Object × Console :=
  let this1 : Object := { this with dynamic := .Vader }
  (this1, say this1 c)

/-- Implicit constructor of `Luke`: the base, then the empty body. -/
def Luke.ctor (this : Object) (c : Console) : Object × Console :=
  let r := Vader.ctor this c
  ({ r.1 with dynamic := .Luke }, r.2)

/-- Constructor of `TalkVader` (line 49). -/
def TalkVader.ctor (this : Object) (c : Console) : Object × Console :=
  let this1 : Object := { this with dynamic := .TalkVader }
  (this1, sayAsUsual this1 { c with cout := c.cout ++ ["I'm Vader, in constructor "] })

/-- Constructor of `TalkLuke` (line 59): the base, then the body. -/
def TalkLuke.ctor (this : Object) (c : Console) : Object × Console :=
  let r := TalkVader.ctor this c
  let this1 : Object := { r.1 with dynamic := .TalkLuke }
  (this1, sayAsUsual this1 { r.2 with cout := r.2.cout ++ ["I'm Luke, in constructor "] })

/-- Function `int test_member_calls_ctor(void)` (lines 66-102); `raw` is the
storage returned by `new` before a constructor runs.  The destructors write
nothing. -/
def test_member_calls_ctor (raw : Object) (c : Console) : Int × Console :=
  -- Father *p_son=new Son; p_son->sayAsUsual(); delete p_son;
  let r := Son.ctor raw c
  let c := sayAsUsual r.1 r.2
  -- Vader *p_luke=new Luke; p_luke->sayAsUsual(); delete p_luke;
  let r := Luke.ctor raw c
  let c := sayAsUsual r.1 r.2
  -- TalkVader *p_talkLuke=new TalkLuke; p_talkLuke->sayAsUsual(); delete p_talkLuke;
  let r := TalkLuke.ctor raw c
  let c := sayAsUsual r.1 r.2
  (0, c)

/-! ## `cont_string.cpp` -/

/-- Containers of `char` that `test_cont_string` converts, each with its
elements in iteration order. -/
inductive Container where
  | array (xs : List Char)
  | vector (xs : List Char)
  | list (xs : List Char)
  | deque (xs : List Char)
  | forward_list (xs : List Char)
  | initializer_list (xs : List Char)

/-- Elements visited from `std::begin(cont)` up to `std::end(cont)`. -/
def Container.range : Container → List Char
  | .array xs => xs
  | .vector xs => xs
  | .list xs => xs
  | .deque xs => xs
  | .forward_list xs => xs
  | .initializer_list xs => xs

/-- Library `std::size(cont)`. -/
def Container.size (cont : Container) : Nat := cont.range.length

/-- Library constructor `std::string(first, last)`: the characters of the range
are appended one by one. -/
def string_of_range (xs : List Char) : String :=
  xs.foldl (fun s ch => s.push ch) ""

/-- Template `std::string cont_2_string(const T& cont)` (lines 25-28). -/
def cont_2_string (cont : Container) : String :=
  string_of_range cont.range

/-- Library constructor `std::string(data, size)`: the first `size` characters
of the memory that starts at `data`. -/
def string_of_data_size (data : List Char) (size : Nat) : String :=
  String.mk (data.take size)

/-- Memory that starts at `data()` of a container stored contiguously: the
elements, followed by whatever `after` lies behind them. -/
def Container.data (cont : Container) (after : List Char) : List Char :=
  cont.range ++ after

/-! ## Basic facts -/

theorem std_swap_eq_exchange {A V : Type} [DecidableEq A] (mv : V → V) (x y : A)
    (mem : A → V) : std_swap mv x y mem = exchange x y mem := by
  funext k
  unfold std_swap exchange
  by_cases hxy : x = y
  · subst hxy
    by_cases hk : k = x
    · subst hk; simp
    · simp [Function.update, hk]
  · by_cases hky : k = y
    · subst hky; simp
    · by_cases hkx : k = x
      · subst hkx
        simp [Function.update, hky, Ne.symm hxy]
      · simp [Function.update, hky, hkx]

theorem exchange_self {A V : Type} [DecidableEq A] (x : A) (mem : A → V) :
    exchange x x mem = mem := by
  funext k
  unfold exchange
  by_cases hk : k = x
  · subst hk; simp
  · simp [Function.update, hk]

theorem exchange_exchange {A V : Type} [DecidableEq A] (x y : A) (mem : A → V) :
    exchange x y (exchange x y mem) = mem := by
  funext k
  unfold exchange
  by_cases hxy : x = y
  · subst hxy
    by_cases hk : k = x
    · subst hk; simp
    · simp [Function.update, hk]
  · by_cases hky : k = y
    · subst hky; simp [Function.update, hxy]
    · by_cases hkx : k = x
      · subst hkx
        simp [Function.update, hky, Ne.symm hxy]
      · simp [Function.update, hky, hkx]

theorem swap_mem {T : Type} (l r : Loc) (w : World T) :
    (swap l r w).mem = exchange l r w.mem := rfl

theorem swap_string_mem (l r : Loc) (w : World String) :
    (swap_string l r w).mem = exchange l r w.mem := rfl

theorem std_swap_array_eq {T : Type} (mv : T → T) (x y : Loc) (em : Loc × Fin 3 → T) :
    std_swap_array mv x y em =
      exchange (x, 2) (y, 2) (exchange (x, 1) (y, 1) (exchange (x, 0) (y, 0) em)) := by
  simp [std_swap_array, std_swap_eq_exchange]

theorem swap_ourclass_mem {T : Type} (mv : T → T) (l r : Loc) (w : World (ourclass T)) :
    (swap_ourclass mv l r w).mem = exchange l r w.mem := by
  funext k
  show objects (std_swap_array mv l r (elems w.mem)) k = _
  rw [std_swap_array_eq]
  have hext : ∀ o p : ourclass T, (∀ i, o.a i = p.a i) → o = p := by
    intro o p h
    cases o; cases p
    congr
    funext i
    exact h i
  apply hext
  intro i
  by_cases hlr : l = r
  · subst hlr
    simp [exchange_self, objects, elems]
  · by_cases hkr : k = r
    · subst hkr
      fin_cases i <;> simp [exchange, objects, elems, Function.update, hlr]
    · by_cases hkl : k = l
      · subst hkl
        fin_cases i <;> simp [exchange, objects, elems, Function.update, hkr]
      · fin_cases i <;> simp [exchange, objects, elems, Function.update, hkr, hkl]

/-! ## Construction -/

theorem std_copy_spec {T : Type} (xs : List T) :
    ∀ (i : Nat) (a : Fin 3 → T), i + xs.length ≤ 3 →
      ∃ b, std_copy xs i a = some b ∧
        (∀ j : Fin 3, j.val < i → b j = a j) ∧
        (∀ j : Fin 3, i + xs.length ≤ j.val → b j = a j) ∧
        (∀ j : Fin 3, i ≤ j.val → j.val < i + xs.length → some (b j) = xs[j.val - i]?) := by
  induction xs with
  | nil =>
    intro i a _
    refine ⟨a, rfl, fun _ _ => rfl, fun _ _ => rfl, ?_⟩
    intro j h1 h2
    simp at h2
    omega
  | cons x xs ih =>
    intro i a hlen
    simp only [List.length_cons] at hlen
    have hi : i < 3 := by omega
    obtain ⟨b, hb, hlo, hhi, hmid⟩ := ih (i + 1) (Function.update a ⟨i, hi⟩ x) (by omega)
    refine ⟨b, ?_, ?_, ?_, ?_⟩
    · simp [std_copy, store_at, hi, hb]
    · intro j hj
      rw [hlo j (by omega)]
      have : j ≠ ⟨i, hi⟩ := by
        intro h; rw [h] at hj; simp at hj
      simp [Function.update, this]
    · intro j hj
      simp only [List.length_cons] at hj
      rw [hhi j (by omega)]
      have : j ≠ ⟨i, hi⟩ := by
        intro h; rw [h] at hj; simp at hj
      simp [Function.update, this]
    · intro j h1 h2
      simp only [List.length_cons] at h2
      by_cases hji : j.val = i
      · have hj : j = ⟨i, hi⟩ := Fin.ext hji
        rw [hlo j (by omega), hj]
        simp
      · have h3 : j.val - i = (j.val - (i + 1)) + 1 := by omega
        rw [h3, List.getElem?_cons_succ]
        exact hmid j (by omega) (by omega)

theorem exchange_left {A V : Type} [DecidableEq A] (x y : A) (mem : A → V) :
    exchange x y mem x = mem y := by
  unfold exchange
  by_cases hxy : x = y
  · subst hxy; simp
  · simp [Function.update, hxy]

theorem exchange_right {A V : Type} [DecidableEq A] (x y : A) (mem : A → V) :
    exchange x y mem y = mem x := by
  unfold exchange
  simp

theorem ctor_of_short {T : Type} (init_list : List T) (a0 : Fin 3 → T) (cout : List String)
    (h : init_list.length ≤ 3) :
    ∃ b, ourclass.ctor init_list a0 cout =
        some { a := b, cout := cout ++ ["init from init_list", endl], thrown := none } ∧
      ∀ j : Fin 3, j.val < init_list.length → some (b j) = init_list[j.val]? := by
  obtain ⟨b, hb, -, -, hmid⟩ := std_copy_spec init_list 0 a0 (by omega)
  refine ⟨b, ?_, ?_⟩
  · have h3 : ¬ init_list.length > 3 := by omega
    simp [ourclass.ctor, h3, hb]
  · intro j hj
    have := hmid j (by omega) (by omega)
    simpa using this

theorem ctor_of_long {T : Type} (init_list : List T) (a0 : Fin 3 → T) (cout : List String)
    (h : 3 < init_list.length) :
    ourclass.ctor init_list a0 cout =
      some { a := a0, cout := cout ++ ["init from init_list", endl],
             thrown := some (Exn.out_of_range "Initializer list is too big") } := by
  simp [ourclass.ctor, h]

/-! ## Running `test_swaps` -/

theorem bind_apply {α β : Type} (m : Run α) (f : α → Run β) (s : Locals) :
    (m >>= f) s =
      match m s with
      | none => none
      | some (Except.error e, s1) => some (Except.error e, s1)
      | some (Except.ok x, s1) => f x s1 := rfl

theorem make_three {T : Type} (x y z : T) (a0 : Fin 3 → T) (cout : List String) :
    ourclass.make [x, y, z] a0 cout =
      some (Except.ok { a := Function.update (Function.update (Function.update a0 0 x) 1 y) 2 z },
            cout ++ ["init from init_list", endl]) := rfl

theorem NoTemplate_make_three (x y z : String) (a0 : Fin 3 → String) (cout : List String) :
    NoTemplate.make [x, y, z] a0 cout =
      some (Except.ok { a := Function.update (Function.update (Function.update a0 0 x) 1 y) 2 z },
            cout ++ ["init from init_list", endl]) := rfl

theorem resolve_global_int : resolve .global .int = some .swap_T := by decide

theorem resolve_std_int : resolve .std .int = some .std_swap_T := by decide

theorem resolve_unqualified_string : resolve .unqualified .string = some .swap_string := by
  decide

theorem resolve_global_string : resolve .global .string = some .swap_string := by decide

theorem resolve_unqualified_ourclass (e : Ty) :
    resolve .unqualified (.ourclass e) = some .swap_ourclass := rfl

theorem resolve_global_ourclass (e : Ty) :
    resolve .global (.ourclass e) = some .swap_ourclass := rfl

theorem resolve_std_ourclass (e : Ty) : resolve .std (.ourclass e) = some .std_swap_T := rfl

theorem resolve_global_NoTemplate : resolve .global .NoTemplate = some .swap_T := by decide

theorem swap_cout {T : Type} (l r : Loc) (w : World T) :
    (swap l r w).cout = w.cout ++ ["Local swap was called", endl] := rfl

theorem swap_string_cout (l r : Loc) (w : World String) :
    (swap_string l r w).cout =
      w.cout ++ ["Local no-template string-specialized swap was called", endl] := rfl

theorem swap_ourclass_cout {T : Type} (mv : T → T) (l r : Loc) (w : World (ourclass T)) :
    (swap_ourclass mv l r w).cout =
      w.cout ++ ["ourclass embedded swap", endl,
        "Specialized swap for ourclass was called", endl] := by
  simp [swap_ourclass, ourclass.swap]

theorem exchange_apply {A V : Type} [DecidableEq A] (x y k : A) (mem : A → V) :
    exchange x y mem k = if k = y then mem x else if k = x then mem y else mem k := by
  unfold exchange
  by_cases h1 : k = y
  · subst h1; simp
  · by_cases h2 : k = x
    · subst h2; simp [Function.update, h1]
    · simp [Function.update, h1, h2]

theorem toString_1 : toString (1 : Int) = "1" := by decide

theorem toString_2 : toString (2 : Int) = "2" := by decide

theorem toString_3 : toString (3 : Int) = "3" := by decide

theorem toString_11 : toString (11 : Int) = "11" := by decide

theorem toString_22 : toString (22 : Int) = "22" := by decide

theorem toString_33 : toString (33 : Int) = "33" := by decide

set_option maxRecDepth 100000 in
theorem test_swaps_body_run (ms : String → String) (s : Locals) :
    ∃ s1, test_swaps_body ms s = some (Except.ok (), s1) ∧
      s1.cout = s.cout ++ test_swaps_cout ∧ s1.cerr = s.cerr ∧
      s1.ints 0 = 1 ∧ s1.ints 1 = 2 ∧ s1.strings 0 = "StrTwo" ∧ s1.strings 1 = "StrOne" ∧
      (s1.ocis 0).toList = [1, 2, 3] ∧ (s1.ocis 1).toList = [11, 22, 33] ∧
      (s1.ocss 0).toList = ["Hi", "Bye", "End"] ∧
      (s1.ocss 1).toList = ["Moin", "Tschüss", "Aus"] := by
  simp only [test_swaps_body, bind_apply, init, put, locals, on_vars, declare, call_swap,
      resolve_global_int, resolve_std_int, resolve_unqualified_string, resolve_global_string,
      resolve_unqualified_ourclass, resolve_std_ourclass, resolve_global_NoTemplate,
      Option.bind, Candidate.invoke, make_three, NoTemplate_make_three,
      int_vars, string_vars, oci_vars, ocs_vars, ntl_vars, swap_mem, swap_string_mem,
      swap_ourclass_mem, std_swap_eq_exchange, swap_cout, swap_string_cout, swap_ourclass_cout]
  refine ⟨_, rfl, ?_, rfl, ?_, ?_, ?_, ?_, ?_, ?_, ?_, ?_⟩
  · simp [exchange_apply, ourclass.put, NoTemplate.put, put_array, endl, empty_strings,
      toString_1, toString_2, toString_3, toString_11, toString_22, toString_33, test_swaps_cout]
  all_goals simp [exchange_apply, ourclass.toList]

theorem test_swaps_run (ms : String → String) (s : Locals) :
    ∃ s1, test_swaps ms s = some (Except.ok 0, s1) ∧
      s1.cout = s.cout ++ test_swaps_cout ∧ s1.cerr = s.cerr ∧
      (s1.ocis 0).toList = [1, 2, 3] ∧ (s1.ocis 1).toList = [11, 22, 33] ∧
      (s1.ocss 0).toList = ["Hi", "Bye", "End"] ∧
      (s1.ocss 1).toList = ["Moin", "Tschüss", "Aus"] := by
  obtain ⟨s1, h, hc, he, -, -, -, -, h1, h2, h3, h4⟩ := test_swaps_body_run ms s
  refine ⟨s1, ?_, hc, he, h1, h2, h3, h4⟩
  simp [test_swaps, try_catch, h]

theorem string_of_range_eq (xs : List Char) : string_of_range xs = String.mk xs := by
  have h : ∀ (ys : List Char) (acc : List Char),
      ys.foldl (fun s ch => s.push ch) (String.mk acc) = String.mk (acc ++ ys) := by
    intro ys
    induction ys with
    | nil => intro acc; simp
    | cons y ys ih =>
      intro acc
      simp only [List.foldl_cons]
      have hp : (String.mk acc).push y = String.mk (acc ++ [y]) := rfl
      rw [hp, ih]
      simp
  have := h xs []
  simpa [string_of_range] using this

/-! ## The claims -/

/-- C1: in each of the three tiers, after `swap(a, b)` the object at `a` has
the value the object at `b` had before and the object at `b` the value the
object at `a` had, and the memory as a whole is the old one with the two values
exchanged; containers built from `{1,2,3}` and `{11,22,33}` hold `{11,22,33}`
and `{1,2,3}` after the container swap. -/
theorem swap_exchanges_states {T : Type} (mv : T → T) (l r : Loc) (w : World T)
    (wc : World (ourclass T)) (ws : World String)
    (mvi : Int → Int) (a0 b0 : Fin 3 → Int) (mem : Loc → ourclass Int) (out : List String) :
    ((swap l r w).mem l = w.mem r ∧ (swap l r w).mem r = w.mem l ∧
      (swap l r w).mem = exchange l r w.mem) ∧
    ((swap_ourclass mv l r wc).mem l = wc.mem r ∧ (swap_ourclass mv l r wc).mem r = wc.mem l ∧
      (swap_ourclass mv l r wc).mem = exchange l r wc.mem) ∧
    ((swap_string l r ws).mem l = ws.mem r ∧ (swap_string l r ws).mem r = ws.mem l ∧
      (swap_string l r ws).mem = exchange l r ws.mem) ∧
    (∃ x y out1 out2,
      ourclass.make [1, 2, 3] a0 out = some (Except.ok x, out1) ∧
      ourclass.make [11, 22, 33] b0 out1 = some (Except.ok y, out2) ∧
      ((swap_ourclass mvi 0 1
          { mem := Function.update (Function.update mem 0 x) 1 y, cout := out2 }).mem 0).toList
        = [11, 22, 33] ∧
      ((swap_ourclass mvi 0 1
          { mem := Function.update (Function.update mem 0 x) 1 y, cout := out2 }).mem 1).toList
        = [1, 2, 3]) := by
  refine ⟨⟨?_, ?_, rfl⟩, ⟨?_, ?_, swap_ourclass_mem mv l r wc⟩, ⟨?_, ?_, rfl⟩, ?_⟩
  · rw [swap_mem, exchange_left]
  · rw [swap_mem, exchange_right]
  · rw [swap_ourclass_mem, exchange_left]
  · rw [swap_ourclass_mem, exchange_right]
  · rw [swap_string_mem, exchange_left]
  · rw [swap_string_mem, exchange_right]
  · refine ⟨_, _, _, _, rfl, rfl, ?_, ?_⟩
    · rw [swap_ourclass_mem, exchange_left]; rfl
    · rw [swap_ourclass_mem, exchange_right]; rfl

/-- C2: in each of the three tiers, two calls `swap(a, b)` in succession leave
every object, `a` and `b` among them, with the value it had before. -/
theorem swap_involutive {T : Type} (mv : T → T) (l r : Loc) (w : World T)
    (wc : World (ourclass T)) (ws : World String) :
    (swap l r (swap l r w)).mem = w.mem ∧
    (swap_ourclass mv l r (swap_ourclass mv l r wc)).mem = wc.mem ∧
    (swap_string l r (swap_string l r ws)).mem = ws.mem := by
  refine ⟨?_, ?_, ?_⟩
  · rw [swap_mem, swap_mem, exchange_exchange]
  · rw [swap_ourclass_mem, swap_ourclass_mem, exchange_exchange]
  · rw [swap_string_mem, swap_string_mem, exchange_exchange]

/-- C3: in each of the three tiers a call `swap(a, a)`, both parameters bound
to the same object, leaves that object and every other one unchanged. -/
theorem self_swap_unchanged {T : Type} (mv : T → T) (l : Loc) (w : World T)
    (wc : World (ourclass T)) (ws : World String) :
    ((swap l l w).mem = w.mem ∧ (swap l l w).mem l = w.mem l) ∧
    ((swap_ourclass mv l l wc).mem = wc.mem ∧ (swap_ourclass mv l l wc).mem l = wc.mem l) ∧
    ((swap_string l l ws).mem = ws.mem ∧ (swap_string l l ws).mem l = ws.mem l) := by
  have h1 : (swap l l w).mem = w.mem := by rw [swap_mem, exchange_self]
  have h2 : (swap_ourclass mv l l wc).mem = wc.mem := by rw [swap_ourclass_mem, exchange_self]
  have h3 : (swap_string l l ws).mem = ws.mem := by rw [swap_string_mem, exchange_self]
  exact ⟨⟨h1, by rw [h1]⟩, ⟨h2, by rw [h2]⟩, ⟨h3, by rw [h3]⟩⟩

/-- C4: the constructor of `ourclass<T>` never has undefined behaviour; the
construction yields the `out_of_range` error "Initializer list is too big"
exactly when the sequence has more than 3 elements and an object exactly when
it has at most 3; when it throws, the member `a` is as it was before the
constructor ran; the sequence `{"Hi","Bye","End","Extra"}` fails. -/
theorem construct_fails_iff_too_long {T : Type} (init_list : List T) (a0 : Fin 3 → T)
    (cout : List String) (s0 : Fin 3 → String) :
    (ourclass.make init_list a0 cout =
        some (Except.error (Exn.out_of_range "Initializer list is too big"),
              cout ++ ["init from init_list", endl])
      ↔ 3 < init_list.length) ∧
    ((∃ e out, ourclass.make init_list a0 cout = some (Except.error e, out))
      ↔ 3 < init_list.length) ∧
    ((∃ o out, ourclass.make init_list a0 cout = some (Except.ok o, out))
      ↔ init_list.length ≤ 3) ∧
    (∃ c, ourclass.ctor init_list a0 cout = some c ∧
      (c.thrown = none ∨ (c.a = a0 ∧ 3 < init_list.length))) ∧
    ourclass.make ["Hi", "Bye", "End", "Extra"] s0 cout =
      some (Except.error (Exn.out_of_range "Initializer list is too big"),
            cout ++ ["init from init_list", endl]) := by
  by_cases h : 3 < init_list.length
  · have hc := ctor_of_long init_list a0 cout h
    have hm : ourclass.make init_list a0 cout =
        some (Except.error (Exn.out_of_range "Initializer list is too big"),
              cout ++ ["init from init_list", endl]) := by
      simp [ourclass.make, hc]
    refine ⟨?_, ?_, ?_, ?_, rfl⟩
    · exact ⟨fun _ => h, fun _ => hm⟩
    · exact ⟨fun _ => h, fun _ => ⟨_, _, hm⟩⟩
    · constructor
      · rintro ⟨o, out, ho⟩
        rw [hm] at ho
        simp at ho
      · intro h'; omega
    · exact ⟨_, hc, Or.inr ⟨rfl, h⟩⟩
  · obtain ⟨b, hc, -⟩ := ctor_of_short init_list a0 cout (by omega)
    have hm : ourclass.make init_list a0 cout =
        some (Except.ok { a := b }, cout ++ ["init from init_list", endl]) := by
      simp [ourclass.make, hc]
    refine ⟨?_, ?_, ?_, ?_, rfl⟩
    · constructor
      · intro he
        rw [hm] at he
        simp at he
      · intro h'; exact absurd h' h
    · constructor
      · rintro ⟨e, out, he⟩
        rw [hm] at he
        simp at he
      · intro h'; exact absurd h' h
    · exact ⟨fun _ => by omega, fun _ => ⟨_, _, hm⟩⟩
    · exact ⟨_, hc, Or.inl rfl⟩

/-- C5: construction of an `ourclass<T>` from a sequence of at most 3 elements
yields an object; `getbyIndex(i)` is the `i`-th element of the sequence for
every `i` below its length, and for every `i` with `0 <= i < 3` the access is
inside the array `a`. -/
theorem construct_preserves_order {T : Type} (init_list : List T) (a0 : Fin 3 → T)
    (cout : List String) (h : init_list.length ≤ 3) :
    ∃ o, ourclass.make init_list a0 cout =
        some (Except.ok o, cout ++ ["init from init_list", endl]) ∧
      (∀ i : Nat, i < init_list.length → o.getbyIndex (i : Int) = init_list[i]?) ∧
      (∀ i : Int, 0 ≤ i → i < 3 → (o.getbyIndex i).isSome = true) := by
  obtain ⟨b, hc, hb⟩ := ctor_of_short init_list a0 cout h
  refine ⟨{ a := b }, ?_, ?_, ?_⟩
  · simp [ourclass.make, hc]
  · intro i hi
    have hi3 : (0 : Int) ≤ (i : Int) ∧ (i : Int) < 3 := by omega
    have := hb ⟨i, by omega⟩ hi
    simp only [ourclass.getbyIndex, hi3, and_self, dite_true]
    simpa using this
  · intro i h0 h3
    simp [ourclass.getbyIndex, h0, h3]

/-- C5 at the sequence `{"Hi","Bye"}` stored over three empty strings. -/
theorem construct_preserves_order_witness :
    ∃ o, ourclass.make ["Hi", "Bye"] empty_strings [] =
        some (Except.ok o, [] ++ ["init from init_list", endl]) ∧
      (∀ i : Nat, i < ["Hi", "Bye"].length → o.getbyIndex (i : Int) = ["Hi", "Bye"][i]?) ∧
      (∀ i : Int, 0 ≤ i → i < 3 → (o.getbyIndex i).isSome = true) :=
  construct_preserves_order ["Hi", "Bye"] empty_strings [] (by decide)

/-- C6: a call `swap(x, y)` or `::swap(x, y)` on two strings runs the
non-template overload and writes its trace only; on two `ourclass<T>` objects
it runs the overload for `ourclass<T>` and writes the traces of the member
swap and of that overload only; the call `::swap(x, y)` on two `int` or two
`NoTemplate` objects runs the generic overload.  So does `::swap` on every
type other than `string` and `ourclass<T>`; the unqualified call on such a type
is ill-formed (it is commented out in line 176), so that no call that compiles
runs another overload of the file.  A non-template candidate is better than
either template and the `ourclass<T>` template better than the generic one,
never the reverse.  In `test_swaps` the swap traces appear in that order. -/
theorem swap_overload_selection (ms : String → String) (e : Ty) (l r : Loc)
    (ws : World String) (wc : World (ourclass e.denote)) (wi : World Int)
    (wn : World NoTemplate) (s : Locals) :
    (resolve .unqualified .string = some .swap_string ∧
      resolve .global .string = some .swap_string ∧
      call_swap ms .unqualified .string l r ws = some (swap_string l r ws) ∧
      call_swap ms .global .string l r ws = some (swap_string l r ws) ∧
      (swap_string l r ws).cout =
        ws.cout ++ ["Local no-template string-specialized swap was called", endl]) ∧
    (resolve .unqualified (.ourclass e) = some .swap_ourclass ∧
      resolve .global (.ourclass e) = some .swap_ourclass ∧
      call_swap ms .unqualified (.ourclass e) l r wc =
        some (swap_ourclass (Ty.moved ms e) l r wc) ∧
      call_swap ms .global (.ourclass e) l r wc =
        some (swap_ourclass (Ty.moved ms e) l r wc) ∧
      (swap_ourclass (Ty.moved ms e) l r wc).cout =
        wc.cout ++ ["ourclass embedded swap", endl,
          "Specialized swap for ourclass was called", endl]) ∧
    (resolve .global .int = some .swap_T ∧ resolve .global .NoTemplate = some .swap_T ∧
      call_swap ms .global .int l r wi = some (swap l r wi) ∧
      call_swap ms .global .NoTemplate l r wn = some (swap l r wn) ∧
      (swap l r wi).cout = wi.cout ++ ["Local swap was called", endl] ∧
      (swap l r wn).cout = wn.cout ++ ["Local swap was called", endl]) ∧
    (∀ t : Ty, resolve .global t =
        some (match t with
          | .string => Candidate.swap_string
          | .ourclass _ => Candidate.swap_ourclass
          | _ => Candidate.swap_T)) ∧
    (∀ t : Ty, resolve .unqualified t =
        match t with
        | .string => some Candidate.swap_string
        | .ourclass _ => some Candidate.swap_ourclass
        | _ => none) ∧
    (Candidate.better .swap_string .swap_ourclass = true ∧
      Candidate.better .swap_string .swap_T = true ∧
      Candidate.better .swap_ourclass .swap_T = true ∧
      Candidate.better .swap_ourclass .swap_string = false ∧
      Candidate.better .swap_T .swap_string = false ∧
      Candidate.better .swap_T .swap_ourclass = false) ∧
    (∃ s1, test_swaps ms s = some (Except.ok 0, s1) ∧ s1.cout = s.cout ++ test_swaps_cout) ∧
    test_swaps_cout.filter (fun c => decide (c ∈
        ["Local swap was called", "Specialized swap for ourclass was called",
         "Local no-template string-specialized swap was called"])) =
      ["Local swap was called",
       "Local no-template string-specialized swap was called",
       "Local no-template string-specialized swap was called",
       "Specialized swap for ourclass was called",
       "Specialized swap for ourclass was called",
       "Local swap was called"] := by
  refine ⟨⟨by decide, by decide, rfl, rfl, rfl⟩,
    ⟨rfl, rfl, rfl, rfl, swap_ourclass_cout _ l r wc⟩,
    ⟨by decide, by decide, rfl, rfl, rfl, rfl⟩, ?_, ?_,
    ⟨by decide, by decide, by decide, by decide, by decide, by decide⟩, ?_, ?_⟩
  · intro t
    cases t <;> rfl
  · intro t
    cases t <;> rfl
  · obtain ⟨s1, h, hc, -⟩ := test_swaps_run ms s
    exact ⟨s1, h, hc⟩
  · decide

/-- C7: for every pair of `ourclass<T>` containers the container overload
leaves the same memory as the generic copy-based overload; a generic swap or a
`std::swap` after it restores the memory; in `test_swaps` the containers are
printed exchanged after `swap` and in their original order after `std::swap`,
and hold their original contents at the end. -/
theorem swap_ourclass_same_as_generic {T : Type} (mv : T → T)
    (mvo : ourclass T → ourclass T) (l r : Loc) (wc : World (ourclass T))
    (ms : String → String) (s : Locals) :
    (swap_ourclass mv l r wc).mem = (swap l r wc).mem ∧
    (swap l r (swap_ourclass mv l r wc)).mem = wc.mem ∧
    std_swap mvo l r (swap_ourclass mv l r wc).mem = wc.mem ∧
    (∃ s1, test_swaps ms s = some (Except.ok 0, s1) ∧
      s1.cout = s.cout ++ test_swaps_cout ∧
      (s1.ocis 0).toList = [1, 2, 3] ∧ (s1.ocis 1).toList = [11, 22, 33] ∧
      (s1.ocss 0).toList = ["Hi", "Bye", "End"] ∧
      (s1.ocss 1).toList = ["Moin", "Tschüss", "Aus"]) ∧
    (test_swaps_cout.drop 72).take 18 =
      ["ourclass<int> after swap:\n\t",
       "\x7b", "11", " ", "22", " ", "33", " ", "\x7d",
       "\x7b", "1", " ", "2", " ", "3", " ", "\x7d", "\n"] ∧
    (test_swaps_cout.drop 90).take 18 =
      ["ourclass<int> after std::swap:\n\t",
       "\x7b", "1", " ", "2", " ", "3", " ", "\x7d",
       "\x7b", "11", " ", "22", " ", "33", " ", "\x7d", "\n"] ∧
    (test_swaps_cout.drop 135).take 18 =
      ["ourclass<string> after swap:\n\t",
       "\x7b", "Moin", " ", "Tschüss", " ", "Aus", " ", "\x7d",
       "\x7b", "Hi", " ", "Bye", " ", "End", " ", "\x7d", "\n"] ∧
    (test_swaps_cout.drop 153).take 18 =
      ["ourclass<string> after std::swap:\n\t",
       "\x7b", "Hi", " ", "Bye", " ", "End", " ", "\x7d",
       "\x7b", "Moin", " ", "Tschüss", " ", "Aus", " ", "\x7d", "\n"] := by
  refine ⟨?_, ?_, ?_, ?_, by decide, by decide, by decide, by decide⟩
  · rw [swap_ourclass_mem, swap_mem]
  · rw [swap_mem, swap_ourclass_mem, exchange_exchange]
  · rw [std_swap_eq_exchange, swap_ourclass_mem, exchange_exchange]
  · obtain ⟨s1, h, hc, -, h1, h2, h3, h4⟩ := test_swaps_run ms s
    exact ⟨s1, h, hc, h1, h2, h3, h4⟩

/-- C8: while a `Luke` is constructed the call `say()` in the constructor of
`Vader` runs `Vader::say` and writes "I am Your Father"; after the construction
`sayAsUsual()` runs `Luke::say` and writes "Nooooooo".  While a `TalkLuke` is
constructed `sayAsUsual()` in the constructor of `TalkVader` runs
`TalkVader::say` and the one in the constructor of `TalkLuke` runs
`TalkLuke::say`, as does `sayAsUsual()` after the construction. -/
theorem virtual_call_in_constructor (raw : Object) (c : Console) :
    ((Luke.ctor raw c).2.said = c.said ++ [Class.Vader] ∧
      (Luke.ctor raw c).2.cout = c.cout ++ ["I am Your Father", endl] ∧
      (sayAsUsual (Luke.ctor raw c).1 c).said = c.said ++ [Class.Luke] ∧
      (sayAsUsual (Luke.ctor raw c).1 c).cout =
        c.cout ++ ["I usually say:", endl, "\tNooooooo", endl]) ∧
    ((TalkLuke.ctor raw c).2.said = c.said ++ [Class.TalkVader, Class.TalkLuke] ∧
      (TalkLuke.ctor raw c).2.cout =
        c.cout ++ ["I\x27m Vader, in constructor ", "I usually say:", endl,
          "I am Your Father", endl,
          "I\x27m Luke, in constructor ", "I usually say:", endl, "\tNooooooo", endl] ∧
      (sayAsUsual (TalkLuke.ctor raw c).1 c).said = c.said ++ [Class.TalkLuke] ∧
      (sayAsUsual (TalkLuke.ctor raw c).1 c).cout =
        c.cout ++ ["I usually say:", endl, "\tNooooooo", endl]) ∧
    (test_member_calls_ctor raw { cout := [], said := [] }).1 = 0 ∧
    (test_member_calls_ctor raw { cout := [], said := [] }).2.said =
      [Class.Son, Class.Vader, Class.Luke, Class.TalkVader, Class.TalkLuke, Class.TalkLuke] := by
  refine ⟨⟨rfl, rfl, rfl, ?_⟩, ⟨?_, ?_, rfl, ?_⟩, rfl, rfl⟩ <;>
    simp [Luke.ctor, Vader.ctor, TalkLuke.ctor, TalkVader.ctor, sayAsUsual, say, say_body]

/-- C9: for every container of characters, with or without a zero character
among or behind its elements, `cont_2_string` returns the string whose length
is the number of elements and whose characters are the elements in order, the
string `std::string(data, size)` builds from the same contents. -/
theorem cont_2_string_exact (cont : Container) (after : List Char) :
    (cont_2_string cont).length = cont.size ∧
    (cont_2_string cont).data = cont.range ∧
    string_of_data_size (cont.data after) cont.size = cont_2_string cont ∧
    cont_2_string (.deque ['D', 'e', 'q', 'u', 'e']) = "Deque" ∧
    (cont_2_string (.vector ['W', '\x00', 'l'])).data = ['W', '\x00', 'l'] := by
  have h : cont_2_string cont = String.mk cont.range := string_of_range_eq _
  refine ⟨?_, ?_, ?_, ?_, ?_⟩
  · rw [h]; rfl
  · rw [h]
  · rw [h]
    simp [string_of_data_size, Container.data, Container.size]
  · rw [cont_2_string, string_of_range_eq]; rfl
  · rw [cont_2_string, string_of_range_eq]; rfl

/-- C10: whatever the `try` block does, `test_swaps` returns and lets no
exception out; it returns 1 exactly when the block threw an exception derived
from `std::exception`, and 0 both when the block threw anything else and when
it completed; the block of `test_swaps` itself completes, so the function
returns 0 and writes nothing to `cerr`. -/
theorem test_swaps_return_code (block : Run Unit) (s s1 : Locals) (e : Exn)
    (ms : String → String) :
    (try_catch block s).map (fun p => p.1) =
      (block s).map (fun p =>
        match p.1 with
        | Except.error x => Except.ok (if x.derives_std_exception then 1 else 0)
        | Except.ok _ => Except.ok 0) ∧
    ((try_catch (fun _ => some (Except.error e, s1)) s).map (fun p => p.1) = some (Except.ok 1)
      ↔ e.derives_std_exception = true) ∧
    (try_catch (fun _ => some (Except.error Exn.unknown, s1)) s).map (fun p => p.1) =
      some (Except.ok 0) ∧
    (try_catch (fun _ => some (Except.ok (), s1)) s).map (fun p => p.1) = some (Except.ok 0) ∧
    (∃ s2, test_swaps ms s = some (Except.ok 0, s2) ∧ s2.cerr = s.cerr) := by
  refine ⟨?_, ?_, rfl, rfl, ?_⟩
  · unfold try_catch
    rcases hb : block s with _ | ⟨r, s2⟩
    · rfl
    · rcases r with x | u
      · by_cases hx : x.derives_std_exception = true <;> simp [hx]
      · rfl
  · by_cases hx : e.derives_std_exception = true <;> simp [try_catch, hx]
  · obtain ⟨s2, h, -, he, -⟩ := test_swaps_run ms s
    exact ⟨s2, h, he⟩

end CppTidbits
